import Mathlib

/-!
Verification of `mcp_playground/llm_bridge/openrouter_client.py`.

The source is a small Python module: an `OpenRouterClient` class with
`fetch_models`, `fetch_top_models_by_provider` and `get_extra_headers`,
plus a free function `format_model_display`.  We shallowly embed the
Python values flowing through these functions as an inductive `PyVal`
(Python's `None`, `bool`, `int`, `float`, `str`, `list`, `dict` with
string keys), model Python truthiness and the raising operations with
`Except`, and prove the specification claims about the embedding.
-/

namespace OpenRouter

/-- Shallow embedding of the Python values handled by the module.
Floats are modelled as rationals (no claim depends on binary rounding);
dict keys are strings, which covers every dict the module builds or
reads (JSON objects). -/
inductive PyVal where
  | none
  | bool (b : Bool)
  | int (n : Int)
  | float (q : ℚ)
  | str (s : String)
  | list (xs : List PyVal)
  | dict (xs : List (String × PyVal))

/-- Errors the embedded Python code can raise. -/
inductive PyErr where
  | keyError (k : String)
  | attributeError (a : String)
  | typeError
  | valueError
  | requestError
  | httpStatusError (code : Nat)
  | jsonDecodeError
deriving DecidableEq, Repr

/-- `d.get(k)` on a Python dict with string keys (assoc-list lookup,
first match; Python dicts have unique keys). -/
def dget (d : List (String × PyVal)) (k : String) : Option PyVal :=
  (d.find? (fun p => p.1 == k)).map (fun p => p.2)

/-- `d.get(k, default)`. -/
def dgetD (d : List (String × PyVal)) (k : String) (v : PyVal) : PyVal :=
  (dget d k).getD v

/-- Python truthiness of a value (`bool(x)`). -/
def truthy : PyVal → Bool
  | .none => false
  | .bool b => b
  | .int n => n != 0
  | .float q => q != 0
  | .str s => s != ""
  | .list xs => !xs.isEmpty
  | .dict xs => !xs.isEmpty

/-- `isinstance(x, (int, float))`.  In Python `bool` is a subclass of
`int`, so booleans pass this check. -/
def isNumber : PyVal → Bool
  | .bool _ => true
  | .int _ => true
  | .float _ => true
  | _ => false

/-- Numeric value of a `bool`/`int`/`float` (0 for other shapes, which
are never reached under `isNumber`). -/
def numVal : PyVal → ℚ
  | .bool b => if b then 1 else 0
  | .int n => (n : ℚ)
  | .float q => q
  | _ => 0

/-- Python `int(q)` on a number: truncation toward zero, computed on
the rational's reduced numerator/denominator (`tdiv` truncates toward
zero). -/
def pyTrunc (q : ℚ) : Int :=
  q.num.tdiv (q.den : Int)

/-- Value of a (possibly empty) run of decimal digits; `Option.none`
if any character is not a digit. -/
def digitsVal (cs : List Char) : Option Nat :=
  cs.foldl
    (fun acc c => match acc with
      | Option.none => Option.none
      | some n => if c.isDigit then some (n * 10 + (c.toNat - 48)) else Option.none)
    (some 0)

/-- Parse the unsigned part `digits[.digits]` of a Python float literal
into a rational; at least one digit must be present overall.  (Python
also accepts exponents/inf/nan; no claim depends on those forms.) -/
def parseUnsigned (cs : List Char) : Option ℚ :=
  match cs.splitOn '.' with
  | [intPart] =>
      if intPart.isEmpty then Option.none
      else (digitsVal intPart).map (fun n => (n : ℚ))
  | [intPart, fracPart] =>
      if intPart.isEmpty && fracPart.isEmpty then Option.none
      else
        match digitsVal intPart, digitsVal fracPart with
        | some i, some f =>
            some ((i : ℚ) + (f : ℚ) / ((10 : ℚ) ^ fracPart.length))
        | _, _ => Option.none
  | _ => Option.none

/-- `float(s)` on a string. -/
def parseFloatStr (s : String) : Option ℚ :=
  match s.data with
  | '-' :: rest => (parseUnsigned rest).map (fun q => -q)
  | '+' :: rest => parseUnsigned rest
  | cs => parseUnsigned cs

/-- Python `float(x)`: numbers convert, strings parse, everything else
raises (`TypeError` for non-strings, `ValueError` for bad strings). -/
def pyFloat : PyVal → Except PyErr ℚ
  | .bool b => .ok (if b then 1 else 0)
  | .int n => .ok (n : ℚ)
  | .float q => .ok q
  | .str s =>
      match parseFloatStr s with
      | some q => .ok q
      | Option.none => .error .valueError
  | .none => .error .typeError
  | .list _ => .error .typeError
  | .dict _ => .error .typeError

/-- Python's `f"{x * 1000000:.2f}"` on our rational model: scale to
price-per-million, round to cents (half-up; only exact values are
exercised by the claims, where all rounding modes agree) and print
with exactly two decimals.  `round(q * 10^8) = ⌊(2·num·10^8 + den) /
(2·den)⌋`, computed on the rational's own fields so proofs can
evaluate it. -/
def fmtPerM (q : ℚ) : String :=
  let cents : Int :=
    Int.fdiv (2 * (q.num * 100000000) + (q.den : Int)) (2 * (q.den : Int))
  let a : Nat := cents.natAbs
  let frac : Nat := a % 100
  let fracStr : String := (if frac < 10 then "0" else "") ++ toString frac
  (if cents < 0 then "-" else "") ++ toString (a / 100) ++ "." ++ fracStr

/-- Digit grouping of `f"{n:,}"`: commas every three digits.  The input
list is the reversed digit list of the number. -/
def group3 : List Char → List Char
  | a :: b :: c :: d :: rest => a :: b :: c :: ',' :: group3 (d :: rest)
  | l => l

/-- Python `f"{n:,}"` on an integer. -/
def pyGroup (n : Int) : String :=
  let g := String.mk (group3 (toString n.natAbs).data.reverse).reverse
  (if n < 0 then "-" else "") ++ g

mutual

/-- Python `repr(x)`: scalars follow CPython (floats approximated by
the rational's own rendering), containers recurse with quoted string
elements. -/
def pyRepr : PyVal → String
  | .str s => "\x27" ++ s ++ "\x27"
  | .int n => toString n
  | .bool b => if b then "True" else "False"
  | .none => "None"
  | .float q => toString q
  | .list xs => "[" ++ pyReprList xs ++ "]"
  | .dict xs => "\x7b" ++ pyReprDict xs ++ "\x7d"

def pyReprList : List PyVal → String
  | [] => ""
  | [x] => pyRepr x
  | x :: y :: rest => pyRepr x ++ ", " ++ pyReprList (y :: rest)

def pyReprDict : List (String × PyVal) → String
  | [] => ""
  | [(k, v)] => "\x27" ++ k ++ "\x27: " ++ pyRepr v
  | (k, v) :: y :: rest =>
      "\x27" ++ k ++ "\x27: " ++ pyRepr v ++ ", " ++ pyReprDict (y :: rest)

end

/-- Python `str(x)` as used by the f-string assembling the display:
strings render as themselves, everything else as its `repr`. -/
def pyStr : PyVal → String
  | .str s => s
  | v => pyRepr v

/-! ## The formatter: `format_model_display` -/

/-- The fixed allow-list of tool-capable model-name fragments, verbatim
from the source. -/
def toolPatterns : List String :=
  ["gpt-4o", "gpt-4-turbo", "gpt-4", "gpt-3.5-turbo",
   "claude-3", "claude-3.5", "gemini-1.5", "gemini-pro",
   "llama-3.1", "llama-3.2", "mistral-large", "mixtral"]

/-- Does `hay` start with `needle`? (`hay.startswith(needle)` on
character lists.) -/
def startsWithList : List Char → List Char → Bool
  | [], _ => true
  | _ :: _, [] => false
  | a :: as, b :: bs => a == b && startsWithList as bs

/-- Python's substring containment `needle in hay` on character
lists. -/
def isSubList (needle : List Char) : List Char → Bool
  | [] => needle.isEmpty
  | c :: rest => startsWithList needle (c :: rest) || isSubList needle rest

/-- Python `s.lower()` (ASCII case folding, character by
character). -/
def strLower (s : String) : String :=
  String.mk (s.data.map Char.toLower)

/-- `any(pattern in model_lower for pattern in [...])` where
`model_lower = model_id.lower()`. -/
def fragmentMatch (model_id : String) : Bool :=
  toolPatterns.any (fun p => isSubList p.data (strLower model_id).data)

/-- The tool-capability block of `format_model_display` (the body of
`if include_tool_indicator:`).  Returns the pair
(`tool_indicator`, final value of the `supports_tools` variable).
The block sits in a `try: ... except Exception: pass`; the only
statement that can raise is `model_id.lower()` on a non-string id
(`AttributeError`), which leaves `tool_indicator = ""` and
`supports_tools` at its fetched value. -/
def toolCheck (model : List (String × PyVal)) (model_id : PyVal) :
    String × PyVal :=
  let supports_tools := dgetD model "supports_tools" (.bool false)
  let supports_function_calling :=
    dgetD model "supports_function_calling" (.bool false)
  if truthy supports_tools || truthy supports_function_calling then
    ("🔧 ", supports_tools)
  else
    match model_id with
    | .str s => if fragmentMatch s then ("🔧 ", .bool true) else ("", supports_tools)
    | _ => ("", supports_tools)

/-- The pricing block of `format_model_display`.  `pricing.get` on a
non-dict raises `AttributeError`, which the surrounding
`except (ValueError, TypeError)` does NOT catch; conversion failures
from `float(...)` are caught and collapse to the fallback string. -/
def pricingStrE (pricing : PyVal) : Except PyErr String :=
  match pricing with
  | .dict d =>
      .ok (match pyFloat (dgetD d "prompt" (.int 0)),
                 pyFloat (dgetD d "completion" (.int 0)) with
        | .ok p, .ok c =>
            "$" ++ fmtPerM p ++ "/$" ++ fmtPerM c ++ " per 1M"
        | _, _ => "Pricing unavailable")
  | _ => .error (.attributeError "get")

/-- The context-length block of `format_model_display`:
`isinstance(context_length, (int, float)) and context_length > 0`. -/
def context_str (context_length : PyVal) : String :=
  if isNumber context_length && decide (0 < numVal context_length) then
    pyGroup (pyTrunc (numVal context_length)) ++ " ctx"
  else
    "Unknown ctx"

/-- `name = model.get("name", model.get("id", "Unknown"))`. -/
def nameOf (model : List (String × PyVal)) : PyVal :=
  dgetD model "name" (dgetD model "id" (.str "Unknown"))

/-- The dict returned by `format_model_display`. -/
structure Formatted where
  display : String
  id : PyVal
  name : PyVal
  description : PyVal
  pricing : PyVal
  context_length : PyVal
  supports_tools : PyVal

/-- `format_model_display(model, include_tool_indicator=False)`.
Raises `KeyError` on `model["id"]` when the key is absent (not caught);
raises `AttributeError` from the pricing block when the record's
`pricing` value is not a dict; otherwise returns the display record,
whose `supports_tools` entry is Python `None` when the indicator was
not requested. -/
def format_model_display (model : List (String × PyVal))
    (include_tool_indicator : Bool) : Except PyErr Formatted :=
  let name := nameOf model
  match dget model "id" with
  | Option.none => .error (.keyError "id")
  | some model_id =>
    let pricing := dgetD model "pricing" (.dict [])
    let context_length := dgetD model "context_length" (.str "Unknown")
    let description := dgetD model "description" (.str "")
    let tool_result :=
      if include_tool_indicator then toolCheck model model_id
      else ("", PyVal.bool false)
    match pricingStrE pricing with
    | .error e => .error e
    | .ok pricing_str =>
        .ok { display := tool_result.1 ++ pyStr name ++ " | " ++ pricing_str
                         ++ " | " ++ context_str context_length
              id := model_id
              name := name
              description := description
              pricing := pricing
              context_length := context_length
              supports_tools :=
                if include_tool_indicator then tool_result.2 else .none }

/-! ## The client: configuration, headers and fetching -/

/-- The immutable configuration set in `OpenRouterClient.__init__`
(`base_url` is a constant and plays no role in the claims). -/
structure OpenRouterClient where
  api_key : String
  site_url : Option String := Option.none
  site_name : Option String := Option.none

/-- `get_extra_headers`: builds the dict in insertion order; `if
self.site_url:` is Python truthiness, so `None` and the empty string
are both skipped. -/
def get_extra_headers (c : OpenRouterClient) : List (String × String) :=
  let headers : List (String × String) := []
  let headers := match c.site_url with
    | some u => if u != "" then headers ++ [("HTTP-Referer", u)] else headers
    | Option.none => headers
  let headers := match c.site_name with
    | some n => if n != "" then headers ++ [("X-Title", n)] else headers
    | Option.none => headers
  headers

/-- Outcome of the `requests.get` call inside `fetch_models`:
the request itself may raise, or it yields a response with an HTTP
status code and a body whose JSON parse either fails (`Option.none`)
or yields a value. -/
inductive FetchOutcome where
  | netError
  | response (code : Nat) (body : Option PyVal)

/-- The body of the `try:` block of `fetch_models`:
`response.raise_for_status()` raises on a 4xx/5xx status,
`response.json()` raises on a decode failure, and `data.get("data",
[])` raises `AttributeError` when the parsed body is not a dict. -/
def fetch_models_body (o : FetchOutcome) : Except PyErr PyVal :=
  match o with
  | .netError => .error .requestError
  | .response code body =>
      if 400 ≤ code then .error (.httpStatusError code)
      else
        match body with
        | Option.none => .error .jsonDecodeError
        | some data =>
            match data with
            | .dict d => .ok (dgetD d "data" (.list []))
            | _ => .error (.attributeError "get")

/-- `fetch_models`: the whole body sits in `try: ... except Exception:`
which prints a diagnostic and returns `[]`, so the function is total —
no error ever reaches the caller. -/
def fetch_models (o : FetchOutcome) : PyVal :=
  match fetch_models_body o with
  | .ok v => v
  | .error _ => .list []

/-- One step of the list comprehension in
`fetch_top_models_by_provider`: evaluate
`model["id"].startswith(f"{provider}/")`.  Subscripting a non-dict
raises `TypeError`, a missing key raises `KeyError`, and `.startswith`
on a non-string raises `AttributeError` — none of them caught. -/
def idStartsWith (provider : String) (model : PyVal) : Except PyErr Bool :=
  match model with
  | .dict d =>
      match dget d "id" with
      | Option.none => .error (.keyError "id")
      | some v =>
          match v with
          | .str s => .ok (startsWithList (provider ++ "/").data s.data)
          | _ => .error (.attributeError "startswith")
  | _ => .error .typeError

/-- The list comprehension `[m for m in all_models if m["id"].startswith(...)]`,
evaluated left to right, propagating the first raised error. -/
def filterByProvider (provider : String) :
    List PyVal → Except PyErr (List PyVal)
  | [] => .ok []
  | m :: rest => do
      let keep ← idStartsWith provider m
      let tail ← filterByProvider provider rest
      return if keep then m :: tail else tail

/-- `fetch_top_models_by_provider(provider, limit)`, applied to the
list the underlying `fetch_models` produced (`limit` is a count,
`≥ 0`): filter by the provider prefix, then `[:limit]`. -/
def fetch_top_models_by_provider (provider : String) (limit : Nat)
    (all_models : List PyVal) : Except PyErr (List PyVal) := do
  let provider_models ← filterByProvider provider all_models
  return provider_models.take limit

/-! ## Unfolding lemmas shared by the claim proofs -/

/-- String concatenation is associative (missing from the libraries in
this form). -/
theorem strAppendAssoc (a b c : String) : a ++ b ++ c = a ++ (b ++ c) := by
  cases a with | mk xa =>
  cases b with | mk xb =>
  cases c with | mk xc =>
  show String.mk (xa ++ xb ++ xc) = String.mk (xa ++ (xb ++ xc))
  rw [List.append_assoc]

/-- A six-part concatenation starts with its first part. -/
theorem display_marker_rest (m a b c d e : String) :
    ∃ rest, m ++ a ++ b ++ c ++ d ++ e = m ++ rest :=
  ⟨a ++ (b ++ (c ++ (d ++ e))), by simp only [strAppendAssoc]⟩

/-- `toolCheck` on a record whose capability flags are boolean-valued
(or absent, giving the default `False`). -/
theorem toolCheck_bool (model : List (String × PyVal)) (s : String)
    (st sfc : Bool)
    (hst : dgetD model "supports_tools" (.bool false) = .bool st)
    (hsfc : dgetD model "supports_function_calling" (.bool false) = .bool sfc) :
    toolCheck model (.str s) =
      (if st || sfc || fragmentMatch s then "🔧 " else "",
       .bool (st || (!st && !sfc && fragmentMatch s))) := by
  unfold toolCheck
  rw [hst, hsfc]
  simp only [truthy]
  cases st <;> cases sfc <;> cases hf : fragmentMatch s <;> simp [hf]

/-- Success-path unfolding of `format_model_display`. -/
theorem format_model_display_ok (model : List (String × PyVal))
    (ti : Bool) (mid : PyVal) (ps : String)
    (hid : dget model "id" = some mid)
    (hps : pricingStrE (dgetD model "pricing" (.dict [])) = .ok ps) :
    format_model_display model ti =
      .ok { display := (if ti then toolCheck model mid
                        else ("", PyVal.bool false)).1
                       ++ pyStr (nameOf model) ++ " | " ++ ps ++ " | "
                       ++ context_str (dgetD model "context_length" (.str "Unknown"))
            id := mid
            name := nameOf model
            description := dgetD model "description" (.str "")
            pricing := dgetD model "pricing" (.dict [])
            context_length := dgetD model "context_length" (.str "Unknown")
            supports_tools := if ti then (toolCheck model mid).2
                              else .none } := by
  unfold format_model_display
  rw [hid]
  simp only [hps]
  cases ti <;> rfl

/-- `toolCheck` when neither capability flag is truthy: everything
rides on the fragment fallback. -/
theorem toolCheck_not_truthy (model : List (String × PyVal)) (s : String)
    (hst : truthy (dgetD model "supports_tools" (.bool false)) = false)
    (hsfc : truthy (dgetD model "supports_function_calling" (.bool false)) = false) :
    toolCheck model (.str s) =
      if fragmentMatch s then ("🔧 ", .bool true)
      else ("", dgetD model "supports_tools" (.bool false)) := by
  simp [toolCheck, hst, hsfc]

/-- The Bool predicate the provider filter keeps: the record is a dict
whose `id` is a string starting with `provider + "/"`. -/
def matchesProvider (p : String) (m : PyVal) : Bool :=
  match m with
  | .dict d =>
      match dget d "id" with
      | some (.str s) => startsWithList (p ++ "/").data s.data
      | _ => false
  | _ => false

/-- On a list of well-formed records (dicts with string ids) the
comprehension raises nothing and reduces to `List.filter`. -/
theorem filterByProvider_ok (p : String) (ms : List PyVal)
    (hwf : ∀ m ∈ ms, ∃ d s, m = .dict d ∧ dget d "id" = some (.str s)) :
    filterByProvider p ms = .ok (ms.filter (matchesProvider p)) := by
  induction ms with
  | nil => rfl
  | cons m rest ih =>
      obtain ⟨d, s, hm, hds⟩ := hwf m (List.mem_cons_self _ _)
      subst hm
      have hrest := ih (fun x hx => hwf x (List.mem_cons_of_mem _ hx))
      unfold filterByProvider idStartsWith
      simp only [hds, hrest, bind, Except.bind, List.filter, matchesProvider]
      cases startsWithList (p ++ "/").data s.data <;> rfl

/-- `model["id"]` raising `KeyError` aborts the formatter. -/
theorem format_missing_id (model : List (String × PyVal)) (ti : Bool)
    (h : dget model "id" = Option.none) :
    format_model_display model ti = .error (.keyError "id") := by
  simp [format_model_display, h]

/-! ## Claims -/

/-- **C5.**  For every model record that lacks the `id` key,
`format_model_display` (with either value of
`include_tool_indicator`) fails with the missing-key error
`KeyError("id")` rather than returning a display record; the error is
not caught inside the formatter. -/
theorem C5_missing_id_raises (model : List (String × PyVal))
    (include_tool_indicator : Bool)
    (h : dget model "id" = Option.none) :
    format_model_display model include_tool_indicator =
      .error (.keyError "id") :=
  format_missing_id model include_tool_indicator h

theorem C5_missing_id_raises_witness :
    dget [("name", PyVal.str "n")] "id" = Option.none ∧
    format_model_display [("name", PyVal.str "n")] true =
      .error (.keyError "id") :=
  ⟨rfl, C5_missing_id_raises [("name", PyVal.str "n")] true rfl⟩

/-- **C1, counterexample.**  The claim says the empty pricing mapping
yields `"Pricing unavailable"`.  In the code a missing `prompt` or
`completion` field defaults to `0` via `pricing.get(..., 0)`, which
converts fine, so the empty mapping yields `"$0.00/$0.00 per 1M"`:
both on the pricing segment itself and through the full formatter. -/
theorem C1_counterexample :
    pricingStrE (.dict []) = .ok "$0.00/$0.00 per 1M" ∧
    "$0.00/$0.00 per 1M" ≠ "Pricing unavailable" ∧
    (format_model_display [("id", PyVal.str "m")] false).map
        Formatted.display =
      .ok "m | $0.00/$0.00 per 1M | Unknown ctx" :=
  ⟨by rfl, by decide, by rfl⟩

/-- **C1, amended.**  `"Pricing unavailable"` is produced exactly when
float-conversion of the `prompt` or `completion` value fails; a
missing field defaults to `0`, which converts, so the numeric
`"$<prompt>/$<completion> per 1M"` form is produced whenever both
(defaulted) values are numerically convertible — in particular for the
empty pricing mapping. -/
theorem C1_pricing_amended (d : List (String × PyVal)) :
    (∀ p c : ℚ, pyFloat (dgetD d "prompt" (.int 0)) = .ok p →
        pyFloat (dgetD d "completion" (.int 0)) = .ok c →
        pricingStrE (.dict d) =
          .ok ("$" ++ fmtPerM p ++ "/$" ++ fmtPerM c ++ " per 1M")) ∧
    (∀ e : PyErr, pyFloat (dgetD d "prompt" (.int 0)) = .error e →
        pricingStrE (.dict d) = .ok "Pricing unavailable") ∧
    (∀ e : PyErr, pyFloat (dgetD d "completion" (.int 0)) = .error e →
        pricingStrE (.dict d) = .ok "Pricing unavailable") := by
  refine ⟨fun p c hp hc => ?_, fun e he => ?_, fun e he => ?_⟩
  · simp [pricingStrE, hp, hc]
  · simp [pricingStrE, he]
  · cases hp : pyFloat (dgetD d "prompt" (.int 0)) <;>
      simp [pricingStrE, hp, he]

theorem C1_pricing_amended_witness :
    pricingStrE (.dict []) =
      .ok ("$" ++ fmtPerM 0 ++ "/$" ++ fmtPerM 0 ++ " per 1M") ∧
    pricingStrE (.dict [("prompt", PyVal.none)]) =
      .ok "Pricing unavailable" :=
  ⟨(C1_pricing_amended []).1 0 0 (by rfl) (by rfl),
   (C1_pricing_amended [("prompt", PyVal.none)]).2.1 .typeError (by rfl)⟩

/-- **C2, counterexample.**  The claim says a record with
`supports_function_calling = true` yields output
`supports_tools = true` when the indicator is requested.  In the code
the returned field is the local `supports_tools` variable, which is
never updated from `supports_function_calling`: on
`{"id": "gorp/z", "supports_function_calling": True}` the output field
is `False` (while the display nevertheless carries the tool marker). -/
theorem C2_counterexample :
    (format_model_display
        [("id", PyVal.str "gorp/z"),
         ("supports_function_calling", PyVal.bool true)] true).map
        Formatted.supports_tools = .ok (.bool false) ∧
    (format_model_display
        [("id", PyVal.str "gorp/z"),
         ("supports_function_calling", PyVal.bool true)] true).map
        Formatted.supports_tools ≠ .ok (.bool true) ∧
    (format_model_display
        [("id", PyVal.str "gorp/z"),
         ("supports_function_calling", PyVal.bool true)] true).map
        Formatted.display =
      .ok "🔧 gorp/z | $0.00/$0.00 per 1M | Unknown ctx" := by
  have hfalse : (format_model_display
      [("id", PyVal.str "gorp/z"),
       ("supports_function_calling", PyVal.bool true)] true).map
      Formatted.supports_tools = .ok (.bool false) := by rfl
  refine ⟨hfalse, ?_, by rfl⟩
  intro h
  rw [hfalse] at h
  simp at h

/-- **C2, amended.**  With the indicator requested and
boolean-or-absent capability flags, the output `supports_tools` field
equals the record's own `supports_tools` flag, upgraded to `true` by
the fragment fallback only when both flags are false; a record with
`supports_function_calling` true alone yields `supports_tools = false`
in the output (the display still carries the tool marker, which is
what the claim's "effective capability" actually drives). -/
theorem C2_supports_tools_amended (model : List (String × PyVal))
    (s : String) (st sfc : Bool) (r : Formatted)
    (hid : dget model "id" = some (.str s))
    (hst : dgetD model "supports_tools" (.bool false) = .bool st)
    (hsfc : dgetD model "supports_function_calling" (.bool false) = .bool sfc)
    (hr : format_model_display model true = .ok r) :
    r.supports_tools = .bool (st || (!st && !sfc && fragmentMatch s)) ∧
    ((st || sfc || fragmentMatch s) = true → ∃ rest, r.display = "🔧 " ++ rest) := by
  cases hps : pricingStrE (dgetD model "pricing" (.dict [])) with
  | error e =>
      rw [format_model_display] at hr
      rw [hid] at hr
      simp only [hps] at hr
      exact Except.noConfusion hr
  | ok ps =>
    rw [format_model_display_ok model true (.str s) ps hid hps] at hr
    simp only [Except.ok.injEq] at hr
    subst hr
    rw [toolCheck_bool model s st sfc hst hsfc]
    constructor
    · simp
    · intro hm
      simp only [if_pos rfl, hm, if_true]
      exact display_marker_rest "🔧 " (pyStr (nameOf model)) " | " ps " | "
        (context_str (dgetD model "context_length" (.str "Unknown")))

theorem C2_supports_tools_amended_witness :
    (format_model_display [("id", PyVal.str "anthropic/claude-3.5-sonnet")]
        true).map Formatted.supports_tools =
      .ok (.bool (false ||
        (!false && !false && fragmentMatch "anthropic/claude-3.5-sonnet"))) := by
  have hr : format_model_display
      [("id", PyVal.str "anthropic/claude-3.5-sonnet")] true =
      .ok { display := "🔧 anthropic/claude-3.5-sonnet | $0.00/$0.00 per 1M | Unknown ctx"
            id := .str "anthropic/claude-3.5-sonnet"
            name := .str "anthropic/claude-3.5-sonnet"
            description := .str ""
            pricing := .dict []
            context_length := .str "Unknown"
            supports_tools := .bool true } := by rfl
  have h := (C2_supports_tools_amended
      [("id", PyVal.str "anthropic/claude-3.5-sonnet")]
      "anthropic/claude-3.5-sonnet" false false _
      (by rfl) (by rfl) (by rfl) hr).1
  rw [hr, Except.map, h]

/-- **C6.**  When neither capability flag is truthy and the id is a
string containing (case-insensitively) one of the allow-list
fragments, the formatter with the indicator requested reports
effective capability `true` and prefixes the display with the tool
marker `"🔧 "`; with no fragment match the output `supports_tools` is
the record's own (non-truthy) flag value and the display is the plain
`name | pricing | context` assembly with no marker prefix. -/
theorem C6_fragment_fallback (model : List (String × PyVal)) (s : String)
    (r : Formatted)
    (hid : dget model "id" = some (.str s))
    (hst : truthy (dgetD model "supports_tools" (.bool false)) = false)
    (hsfc : truthy (dgetD model "supports_function_calling" (.bool false)) = false)
    (hr : format_model_display model true = .ok r) :
    (fragmentMatch s = true →
      r.supports_tools = .bool true ∧ ∃ rest, r.display = "🔧 " ++ rest) ∧
    (fragmentMatch s = false →
      r.supports_tools = dgetD model "supports_tools" (.bool false) ∧
      ∃ ps, pricingStrE (dgetD model "pricing" (.dict [])) = .ok ps ∧
        r.display = pyStr (nameOf model) ++ " | " ++ ps ++ " | " ++
          context_str (dgetD model "context_length" (.str "Unknown"))) := by
  cases hps : pricingStrE (dgetD model "pricing" (.dict [])) with
  | error e =>
      rw [format_model_display] at hr
      rw [hid] at hr
      simp only [hps] at hr
      exact Except.noConfusion hr
  | ok ps =>
    rw [format_model_display_ok model true (.str s) ps hid hps] at hr
    simp only [Except.ok.injEq] at hr
    subst hr
    rw [toolCheck_not_truthy model s hst hsfc]
    constructor
    · intro hf
      simp only [hf, if_true]
      exact ⟨trivial, display_marker_rest "🔧 " (pyStr (nameOf model)) " | " ps
        " | " (context_str (dgetD model "context_length" (.str "Unknown")))⟩
    · intro hf
      simp only [hf, if_false]
      exact ⟨rfl, ps, rfl, rfl⟩

theorem C6_fragment_fallback_witness :
    fragmentMatch "anthropic/claude-3.5-sonnet" = true ∧
    (format_model_display [("id", PyVal.str "anthropic/claude-3.5-sonnet")]
        true).map Formatted.supports_tools = .ok (.bool true) := by
  have hr : format_model_display
      [("id", PyVal.str "anthropic/claude-3.5-sonnet")] true =
      .ok { display := "🔧 anthropic/claude-3.5-sonnet | $0.00/$0.00 per 1M | Unknown ctx"
            id := .str "anthropic/claude-3.5-sonnet"
            name := .str "anthropic/claude-3.5-sonnet"
            description := .str ""
            pricing := .dict []
            context_length := .str "Unknown"
            supports_tools := .bool true } := by rfl
  have h := ((C6_fragment_fallback
      [("id", PyVal.str "anthropic/claude-3.5-sonnet")]
      "anthropic/claude-3.5-sonnet" _ (by rfl) (by rfl) (by rfl) hr).1
      (by rfl)).1
  exact ⟨by rfl, by rw [hr, Except.map, h]⟩

/-- **C7.**  The context segment renders as the truncated integer with
thousands separators plus `" ctx"` exactly when the (defaulted)
`context_length` value is a Python number strictly greater than zero
(`bool` counts as a number in Python), and as the literal
`"Unknown ctx"` in every other case: non-number value, value `≤ 0`, or
absent field (whose default is the string `"Unknown"`). -/
theorem C7_context_rendering (model : List (String × PyVal)) :
    (isNumber (dgetD model "context_length" (.str "Unknown")) = true →
      0 < numVal (dgetD model "context_length" (.str "Unknown")) →
      context_str (dgetD model "context_length" (.str "Unknown")) =
        pyGroup (pyTrunc (numVal (dgetD model "context_length" (.str "Unknown"))))
          ++ " ctx") ∧
    (isNumber (dgetD model "context_length" (.str "Unknown")) = false →
      context_str (dgetD model "context_length" (.str "Unknown")) =
        "Unknown ctx") ∧
    (numVal (dgetD model "context_length" (.str "Unknown")) ≤ 0 →
      context_str (dgetD model "context_length" (.str "Unknown")) =
        "Unknown ctx") ∧
    (dget model "context_length" = Option.none →
      context_str (dgetD model "context_length" (.str "Unknown")) =
        "Unknown ctx") ∧
    (∀ ti r, format_model_display model ti = .ok r →
      ∃ pre, r.display =
        pre ++ (" | " ++
          context_str (dgetD model "context_length" (.str "Unknown")))) := by
  refine ⟨fun hn hpos => ?_, fun hn => ?_, fun hle => ?_, fun habs => ?_,
    fun ti r hr => ?_⟩
  · unfold context_str
    rw [hn]
    simp [hpos]
  · unfold context_str
    rw [hn]
    simp
  · have hd : decide (0 < numVal (dgetD model "context_length" (.str "Unknown")))
        = false := decide_eq_false (not_lt.mpr hle)
    unfold context_str
    rw [hd]
    simp
  · unfold dgetD
    rw [habs]
    rfl
  · cases hid : dget model "id" with
    | none =>
        rw [format_missing_id model ti hid] at hr
        exact Except.noConfusion hr
    | some mid =>
        cases hps : pricingStrE (dgetD model "pricing" (.dict [])) with
        | error e =>
            rw [format_model_display] at hr
            rw [hid] at hr
            simp only [hps] at hr
            exact Except.noConfusion hr
        | ok ps =>
            rw [format_model_display_ok model ti mid ps hid hps] at hr
            simp only [Except.ok.injEq] at hr
            subst hr
            refine ⟨(if ti then toolCheck model mid else ("", PyVal.bool false)).1
              ++ pyStr (nameOf model) ++ " | " ++ ps, ?_⟩
            simp only [strAppendAssoc]

theorem C7_context_rendering_witness :
    context_str (dgetD [("context_length", PyVal.int 128000)]
        "context_length" (.str "Unknown")) =
      pyGroup (pyTrunc (numVal (dgetD [("context_length", PyVal.int 128000)]
        "context_length" (.str "Unknown")))) ++ " ctx" ∧
    context_str (dgetD [("context_length", PyVal.int 128000)]
        "context_length" (.str "Unknown")) = "128,000 ctx" ∧
    context_str (dgetD ([] : List (String × PyVal))
        "context_length" (.str "Unknown")) = "Unknown ctx" := by
  refine ⟨(C7_context_rendering [("context_length", PyVal.int 128000)]).1
      (by rfl) (by norm_num [dgetD, dget, numVal]), by rfl,
    (C7_context_rendering []).2.2.2.1 (by rfl)⟩

/-- **C8.**  With `include_tool_indicator = false` every successful
call returns the sentinel `None` in `supports_tools` and a display
string assembled with the empty indicator — no tool-marker prefix —
regardless of the record's capability flags or id. -/
theorem C8_indicator_off (model : List (String × PyVal)) (r : Formatted)
    (hr : format_model_display model false = .ok r) :
    r.supports_tools = .none ∧
    ∃ ps, pricingStrE (dgetD model "pricing" (.dict [])) = .ok ps ∧
      r.display = pyStr (nameOf model) ++ " | " ++ ps ++ " | " ++
        context_str (dgetD model "context_length" (.str "Unknown")) := by
  cases hid : dget model "id" with
  | none =>
      rw [format_missing_id model false hid] at hr
      exact Except.noConfusion hr
  | some mid =>
      cases hps : pricingStrE (dgetD model "pricing" (.dict [])) with
      | error e =>
          rw [format_model_display] at hr
          rw [hid] at hr
          simp only [hps] at hr
          exact Except.noConfusion hr
      | ok ps =>
          rw [format_model_display_ok model false mid ps hid hps] at hr
          simp only [Except.ok.injEq] at hr
          subst hr
          exact ⟨rfl, ps, rfl, rfl⟩

theorem C8_indicator_off_witness :
    (format_model_display
        [("id", PyVal.str "openai/gpt-4o"),
         ("supports_tools", PyVal.bool true)] false).map
        Formatted.supports_tools = .ok .none := by
  have hr : format_model_display
      [("id", PyVal.str "openai/gpt-4o"),
       ("supports_tools", PyVal.bool true)] false =
      .ok { display := "openai/gpt-4o | $0.00/$0.00 per 1M | Unknown ctx"
            id := .str "openai/gpt-4o"
            name := .str "openai/gpt-4o"
            description := .str ""
            pricing := .dict []
            context_length := .str "Unknown"
            supports_tools := .none } := by rfl
  have h := (C8_indicator_off
      [("id", PyVal.str "openai/gpt-4o"),
       ("supports_tools", PyVal.bool true)] _ hr).1
  rw [hr, Except.map, h]

/-- **C3.**  On a well-formed upstream list (each record a dict with a
string `id`), `fetch_top_models_by_provider` returns exactly the first
`limit` prefix-matching records in upstream order — the filtered list
truncated with `take`, no reordering — so the result has at most
`limit` elements and every element's `id` starts with
`provider ++ "/"`. -/
theorem C3_provider_filter (p : String) (n : Nat) (ms : List PyVal)
    (hwf : ∀ m ∈ ms, ∃ d s, m = .dict d ∧ dget d "id" = some (.str s)) :
    fetch_top_models_by_provider p n ms =
      .ok ((ms.filter (matchesProvider p)).take n) ∧
    ((ms.filter (matchesProvider p)).take n).length ≤ n ∧
    (∀ m ∈ (ms.filter (matchesProvider p)).take n, ∃ d s, m = .dict d ∧
      dget d "id" = some (.str s) ∧
      startsWithList (p ++ "/").data s.data = true) := by
  have hfil := filterByProvider_ok p ms hwf
  refine ⟨?_, List.length_take_le n _, fun m hm => ?_⟩
  · unfold fetch_top_models_by_provider
    simp only [bind, Except.bind, hfil]
    rfl
  · have hm' : m ∈ ms.filter (matchesProvider p) := List.take_subset n _ hm
    obtain ⟨hmem, hmatch⟩ := List.mem_filter.mp hm'
    obtain ⟨d, s, hmd, hds⟩ := hwf m hmem
    subst hmd
    refine ⟨d, s, rfl, hds, ?_⟩
    simp only [matchesProvider, hds] at hmatch
    exact hmatch

theorem C3_provider_filter_witness :
    fetch_top_models_by_provider "openai" 1
        [PyVal.dict [("id", PyVal.str "openai/gpt-4o")],
         PyVal.dict [("id", PyVal.str "anthropic/claude-3")],
         PyVal.dict [("id", PyVal.str "openai/o1")]] =
      .ok (([PyVal.dict [("id", PyVal.str "openai/gpt-4o")],
             PyVal.dict [("id", PyVal.str "anthropic/claude-3")],
             PyVal.dict [("id", PyVal.str "openai/o1")]].filter
               (matchesProvider "openai")).take 1) ∧
    ([PyVal.dict [("id", PyVal.str "openai/gpt-4o")],
      PyVal.dict [("id", PyVal.str "anthropic/claude-3")],
      PyVal.dict [("id", PyVal.str "openai/o1")]].filter
        (matchesProvider "openai")).take 1 =
      [PyVal.dict [("id", PyVal.str "openai/gpt-4o")]] := by
  refine ⟨(C3_provider_filter "openai" 1 _ ?_).1, by rfl⟩
  intro m hm
  simp only [List.mem_cons, List.not_mem_nil, or_false] at hm
  rcases hm with h | h | h <;> subst h <;> exact ⟨_, _, rfl, by rfl⟩

/-- **C4.**  `fetch_models` never surfaces an error: the whole body is
wrapped in `try ... except Exception`, so the embedding is a total
function into `PyVal`.  On a decodable 2xx response whose body is a
JSON object, the result is the `data` field's value, or `[]` when
`data` is absent; on every failing outcome of the body (network error,
4xx/5xx status, JSON decode failure, non-object body) the result is
`[]`. -/
theorem C4_fetch_never_raises (o : FetchOutcome) :
    (∀ code d v, o = .response code (some (.dict d)) → code < 400 →
      dget d "data" = some v → fetch_models o = v) ∧
    (∀ code d, o = .response code (some (.dict d)) → code < 400 →
      dget d "data" = Option.none → fetch_models o = .list []) ∧
    (∀ e, fetch_models_body o = .error e → fetch_models o = .list []) := by
  refine ⟨fun code d v ho hc hd => ?_, fun code d ho hc hd => ?_,
    fun e he => ?_⟩
  · subst ho
    have hb : fetch_models_body (.response code (some (.dict d))) = .ok v := by
      simp only [fetch_models_body]
      rw [if_neg (show ¬ 400 ≤ code by omega)]
      simp [dgetD, hd]
    unfold fetch_models
    rw [hb]
  · subst ho
    have hb : fetch_models_body (.response code (some (.dict d))) =
        .ok (.list []) := by
      simp only [fetch_models_body]
      rw [if_neg (show ¬ 400 ≤ code by omega)]
      simp [dgetD, hd]
    unfold fetch_models
    rw [hb]
  · unfold fetch_models
    rw [he]

theorem C4_fetch_never_raises_witness :
    fetch_models (.response 200 (some (.dict [("data",
        PyVal.list [PyVal.str "m"])]))) = PyVal.list [PyVal.str "m"] ∧
    fetch_models (.response 200 (some (.dict []))) = PyVal.list [] ∧
    fetch_models .netError = PyVal.list [] :=
  ⟨(C4_fetch_never_raises _).1 200 _ _ rfl (by omega) (by rfl),
   (C4_fetch_never_raises _).2.1 200 _ rfl (by omega) (by rfl),
   (C4_fetch_never_raises _).2.2 .requestError (by rfl)⟩

/-- **C9.**  `get_extra_headers` is a pure function of the
configuration: it contains the `HTTP-Referer` entry (with the
configured site url) exactly when the url is set and non-empty, the
`X-Title` entry (with the configured site name) exactly when the name
is set and non-empty, and nothing else. -/
theorem C9_extra_headers (c : OpenRouterClient) :
    (∀ u, ("HTTP-Referer", u) ∈ get_extra_headers c ↔
      (c.site_url = some u ∧ u ≠ "")) ∧
    (∀ v, ("X-Title", v) ∈ get_extra_headers c ↔
      (c.site_name = some v ∧ v ≠ "")) ∧
    (∀ kv ∈ get_extra_headers c,
      kv.1 = "HTTP-Referer" ∨ kv.1 = "X-Title") := by
  obtain ⟨k, su, sn⟩ := c
  refine ⟨fun u => ?_, fun v => ?_, fun kv hkv => ?_⟩
  · cases su with
    | none =>
        cases sn with
        | none => simp [get_extra_headers]
        | some n => by_cases hn : n = "" <;> simp [get_extra_headers, hn]
    | some m =>
        by_cases hm : m = "" <;>
          cases sn with
          | none =>
              simp [get_extra_headers, hm]
              try exact fun h => h.symm
              try exact ⟨fun h => ⟨h.symm, by rw [h]; exact hm⟩,
                fun hh => hh.1.symm⟩
          | some n =>
              by_cases hn : n = "" <;> simp [get_extra_headers, hm, hn] <;>
                first
                | exact fun h => h.symm
                | exact ⟨fun h => ⟨h.symm, by rw [h]; exact hm⟩,
                    fun hh => hh.1.symm⟩
  · cases su with
    | none =>
        cases sn with
        | none => simp [get_extra_headers]
        | some n =>
            by_cases hn : n = "" <;> simp [get_extra_headers, hn]
            all_goals
              first
              | exact fun h => h.symm
              | exact ⟨fun h => ⟨h.symm, by rw [h]; exact hn⟩,
                  fun hh => hh.1.symm⟩
    | some m =>
        by_cases hm : m = "" <;>
          cases sn with
          | none => simp [get_extra_headers, hm]
          | some n =>
              by_cases hn : n = "" <;> simp [get_extra_headers, hm, hn] <;>
                first
                | exact fun h => h.symm
                | exact ⟨fun h => ⟨h.symm, by rw [h]; exact hn⟩,
                    fun hh => hh.1.symm⟩
  · cases su with
    | none =>
        cases sn with
        | none => simp [get_extra_headers] at hkv
        | some n =>
            by_cases hn : n = "" <;> simp [get_extra_headers, hn] at hkv
            try simp [hkv]
    | some m =>
        by_cases hm : m = "" <;>
          cases sn with
          | none =>
              simp [get_extra_headers, hm] at hkv
              try simp [hkv]
          | some n =>
              by_cases hn : n = "" <;>
                simp [get_extra_headers, hm, hn] at hkv <;>
                  try (rcases hkv with h | h <;> simp [h])
              all_goals try simp [hkv]

theorem C9_extra_headers_witness :
    (("HTTP-Referer", "https://e.io") ∈ get_extra_headers
      { api_key := "k", site_url := some "https://e.io",
        site_name := some "" } ↔
      ((some "https://e.io" : Option String) = some "https://e.io" ∧
        "https://e.io" ≠ "")) ∧
    (("X-Title", "T") ∈ get_extra_headers
      { api_key := "k", site_url := some "https://e.io",
        site_name := some "" } ↔
      ((some "" : Option String) = some "T" ∧ "T" ≠ "")) :=
  ⟨(C9_extra_headers _).1 "https://e.io", (C9_extra_headers _).2.1 "T"⟩

/-- On a list of dicts whose present ids are strings, one record
lacking the `id` key makes the comprehension raise `KeyError`. -/
theorem filterByProvider_error (p : String) (ms : List PyVal)
    (hwf : ∀ m ∈ ms, ∃ d, m = .dict d ∧
      ∀ v, dget d "id" = some v → ∃ s, v = .str s)
    (hbad : ∃ m ∈ ms, ∃ d, m = .dict d ∧ dget d "id" = Option.none) :
    filterByProvider p ms = .error (.keyError "id") := by
  induction ms with
  | nil =>
      obtain ⟨m, hm, _⟩ := hbad
      exact absurd hm (List.not_mem_nil m)
  | cons m rest ih =>
      obtain ⟨d, hmd, hstr⟩ := hwf m (List.mem_cons_self _ _)
      subst hmd
      cases hid : dget d "id" with
      | none =>
          unfold filterByProvider idStartsWith
          simp [hid, bind, Except.bind]
      | some v =>
          obtain ⟨s, hv⟩ := hstr v hid
          subst hv
          have hbad' : ∃ m ∈ rest, ∃ d, m = .dict d ∧
              dget d "id" = Option.none := by
            obtain ⟨m', hm', d', he, hn⟩ := hbad
            rcases List.mem_cons.mp hm' with h | h
            · subst h
              injection he with he'
              subst he'
              rw [hid] at hn
              exact Option.noConfusion hn
            · exact ⟨m', h, d', he, hn⟩
          have hrest := ih (fun x hx => hwf x (List.mem_cons_of_mem _ hx)) hbad'
          unfold filterByProvider idStartsWith
          simp [hid, hrest, bind, Except.bind]

/-- **C10.**  If the underlying fetch's list contains a record lacking
the `id` key (other records well formed), `fetch_top_models_by_provider`
propagates `KeyError("id")` instead of returning a list: the
never-raise guarantee of `fetch_models` does not extend to it. -/
theorem C10_filter_raises (p : String) (n : Nat) (ms : List PyVal)
    (hwf : ∀ m ∈ ms, ∃ d, m = .dict d ∧
      ∀ v, dget d "id" = some v → ∃ s, v = .str s)
    (hbad : ∃ m ∈ ms, ∃ d, m = .dict d ∧ dget d "id" = Option.none) :
    fetch_top_models_by_provider p n ms = .error (.keyError "id") := by
  unfold fetch_top_models_by_provider
  simp [bind, Except.bind, filterByProvider_error p ms hwf hbad]

theorem C10_filter_raises_witness :
    fetch_top_models_by_provider "openai" 5
        [PyVal.dict [("id", PyVal.str "openai/gpt-4o")],
         PyVal.dict [("name", PyVal.str "nameless")]] =
      .error (.keyError "id") := by
  refine C10_filter_raises "openai" 5 _ ?_ ?_
  · intro m hm
    simp only [List.mem_cons, List.not_mem_nil, or_false] at hm
    rcases hm with h | h <;> subst h
    · exact ⟨_, rfl, by intro v hv; injection hv with hv'; exact ⟨_, hv'.symm⟩⟩
    · exact ⟨_, rfl, by intro v hv; exact Option.noConfusion hv⟩
  · exact ⟨PyVal.dict [("name", PyVal.str "nameless")],
      by simp, _, rfl, by rfl⟩

end OpenRouter
